import Mathlib

/-!
Shallow embedding of the OpenFoodFacts API client
(`openfoodfacts-api.js`, class `OpenFoodFactsAPI`) and proofs about its
validation, sanitization, transport-guard and response-projection layers.

JavaScript values that may flow into validators are modelled by `JsArg`;
decoded JSON response bodies by `JsonVal`; fallible JavaScript code
(`throw` / `try` / `catch`) by `Except`; the external `fetch` transport by
an explicit `FetchOutcome` argument, so that independence of a result from
the transport outcome expresses "fails before any network call".
-/

set_option maxRecDepth 8192

namespace OFF

/-- Decidable equality for `Except`, used to evaluate the embedding at
concrete inputs. -/
instance exceptDecEq {ε α : Type} [DecidableEq ε] [DecidableEq α] :
    DecidableEq (Except ε α)
  | .error a, .error b =>
    match decEq a b with
    | isTrue h => isTrue (h ▸ rfl)
    | isFalse h => isFalse (fun hh => h (Except.error.inj hh))
  | .error _, .ok _ => isFalse (fun hh => Except.noConfusion hh)
  | .ok _, .error _ => isFalse (fun hh => Except.noConfusion hh)
  | .ok a, .ok b =>
    match decEq a b with
    | isTrue h => isTrue (h ▸ rfl)
    | isFalse h => isFalse (fun hh => h (Except.ok.inj hh))

/-- JavaScript argument values as they can be passed into the client's
validators.  Numbers are modelled as integers (floating point is out of
scope); `obj` and `arr` stand for arbitrary object/array arguments whose
contents the validators never inspect (they only see `typeof`). -/
inductive JsArg where
  | undef
  | jsNull
  | bool (b : Bool)
  | num (n : Int)
  | str (s : String)
  | obj
  | arr
deriving Repr, DecidableEq, Inhabited

/-- JavaScript truthiness for `JsArg` (`undefined`, `null`, `false`, `0`
and the empty string are falsy; objects and arrays are always truthy). -/
def JsArg.truthy : JsArg → Bool
  | .undef => false
  | .jsNull => false
  | .bool b => b
  | .num n => n != 0
  | .str s => s != ""
  | .obj => true
  | .arr => true

/-- Whether `typeof value === 'string'` holds. -/
def JsArg.isStr : JsArg → Bool
  | .str _ => true
  | _ => false

/-- The string payload of a `JsArg`; used only after a `typeof` check has
established the value is a string (other cases are unreachable there). -/
def JsArg.asString : JsArg → String
  | .str s => s
  | _ => ""

/-- Characters matched by the JavaScript regular-expression class `\d`
(the decimal digits 0-9). -/
def allDigits (s : String) : Bool :=
  s.toList.all (fun c => c.isDigit)

/-- Embeds `OpenFoodFactsAPI._validateBarcode(barcode, allowPartial)`.
`loose` is the source's `allowPartial` flag.  The source first checks
`typeof barcode !== 'string'`, then tests the regular expression
`/^\d+$/` (loose) or `/^\d{8,13}$/` (strict); a failed test throws.
The embedding is a pure function, so validation has no side effects. -/
def validateBarcode (value : JsArg) (loose : Bool) : Except String Unit :=
  match value with
  | .str s =>
    if loose then
      if !(allDigits s) || s.length == 0 then
        .error "Invalid barcode format. Must contain only digits."
      else
        .ok ()
    else
      if !(8 ≤ s.length && s.length ≤ 13 && allDigits s) then
        .error "Invalid barcode format. Must be 8-13 digits."
      else
        .ok ()
  | _ => .error "Barcode must be a string"

/-- Uppercase hexadecimal digit for a value below 16. -/
def hexChar (n : Nat) : Char :=
  if n < 10 then Char.ofNat (48 + n) else Char.ofNat (55 + n)

/-- Digit extraction for `toHexUpper`, structurally recursive on a fuel
bound so that it reduces definitionally (8 digits cover every Unicode
code point). -/
def toHexUpperAux : Nat → Nat → List Char
  | 0, _ => []
  | fuel + 1, n =>
    if n < 16 then [hexChar n]
    else toHexUpperAux fuel (n / 16) ++ [hexChar (n % 16)]

/-- Uppercase hexadecimal rendering of a natural number, as used by the
`he` library's numeric character references (for example `3C` for 60). -/
def toHexUpper (n : Nat) : String :=
  String.mk (toHexUpperAux 8 n)

/-- Characters replaced by the `he` library's default `encode`: the unsafe
markup characters amp, lt, gt, double quote, single quote and backtick.
The `he` dependency is external to the repository; this models its default
behaviour on the character classes exercised by this client (non-ASCII
escaping, irrelevant to the properties proved here, is omitted). -/
def heNeedsEscape (c : Char) : Bool :=
  c.toNat == 38 || c.toNat == 60 || c.toNat == 62 ||
  c.toNat == 34 || c.toNat == 39 || c.toNat == 96

/-- Hexadecimal numeric character reference for one character. -/
def escapeChar (c : Char) : String :=
  "&#x" ++ toHexUpper c.toNat ++ ";"

/-- Models `he.encode` (default options): each unsafe character is
replaced by its uppercase-hex numeric character reference. -/
def heEncode (s : String) : String :=
  String.join (s.toList.map (fun c => if heNeedsEscape c then escapeChar c else String.mk [c]))

/-- Whitespace characters removed by JavaScript `String.prototype.trim`
(space, tab, line feed, vertical tab, form feed, carriage return,
no-break space, byte-order mark; further exotic Unicode space characters
do not occur in the inputs considered). -/
def jsWhitespace (c : Char) : Bool :=
  c.toNat == 32 || c.toNat == 9 || c.toNat == 10 || c.toNat == 11 ||
  c.toNat == 12 || c.toNat == 13 || c.toNat == 160 || c.toNat == 65279

/-- JavaScript `trim`: drop whitespace from both ends. -/
def jsTrim (s : String) : String :=
  String.mk (((s.toList.dropWhile jsWhitespace).reverse.dropWhile jsWhitespace).reverse)

/-- JavaScript `substring(0, n)`: the first `n` UTF-16 units (all inputs
considered are within the basic plane, where units and characters agree). -/
def jsSubstringTo (s : String) (n : Nat) : String :=
  String.mk (s.toList.take n)

/-- Embeds `OpenFoodFactsAPI._sanitizeSearchInput(input)`: a `typeof`
string check, then `he.encode(input).trim().substring(0, 100)`. -/
def sanitizeSearchInput (input : JsArg) : Except String String :=
  match input with
  | .str s => .ok (jsSubstringTo (jsTrim (heEncode s)) 100)
  | _ => .error "Search input must be a string"

/-- Known image signatures from `_validateImageFile`. -/
def jpegSig : List Nat := [0xFF, 0xD8, 0xFF]

/-- PNG leading signature. -/
def pngSig : List Nat := [0x89, 0x50, 0x4E, 0x47]

/-- RIFF container signature (WebP files start with RIFF). -/
def riffSig : List Nat := [0x52, 0x49, 0x46, 0x46]

/-- The ASCII bytes of `WEBP`, expected at offsets 8-11 of a WebP file. -/
def webpId : List Nat := [0x57, 0x45, 0x42, 0x50]

/-- Embeds `signature.every((byte, index) => bytes[index] === byte)`:
every signature byte must be present in `bytes` at the same index (an
out-of-range index reads `undefined` in JavaScript and fails the test). -/
def sigMatches : (bytes : List Nat) → (sig : List Nat) → Bool
  | _, [] => true
  | [], _ :: _ => false
  | b :: bs, s :: ss => b == s && sigMatches bs ss

/-- Embeds the signature loop of `_validateImageFile` (iteration order
jpeg, png, webp as in `Object.entries(signatures)`): a webp/RIFF match
additionally requires the `WEBP` identifier at offsets 8-11, but only
when at least 12 bytes were read; on an identifier mismatch the loop
continues past webp and ends with no valid signature. -/
def checkMagicBytes (bytes : List Nat) : Bool :=
  if sigMatches bytes jpegSig then true
  else if sigMatches bytes pngSig then true
  else if sigMatches bytes riffSig then
    if 12 ≤ bytes.length then sigMatches (bytes.drop 8) webpId
    else true
  else false

/-- A file argument to `uploadPhoto`: declared MIME type and size when
the object exposes them, the full byte content, and which read
capabilities (`slice`, `arrayBuffer`) the object exposes. -/
structure FileAsset where
  declaredType : Option String := none
  declaredSize : Option Nat := none
  content : List Nat := []
  hasSlice : Bool := false
  hasArrayBuffer : Bool := false
deriving Repr, DecidableEq

/-- The read operation `_validateImageFile` performs on a file: either a
ranged `slice(lo, hi)` followed by reading only the sliced buffer, or a
full `arrayBuffer()` read of the whole content. -/
inductive ReadOp where
  | sliceRead (lo hi : Nat)
  | fullRead
deriving Repr, DecidableEq

/-- Which read `_validateImageFile` performs: none without an
`arrayBuffer` capability; `slice(0, 16)` when `slice` is available;
otherwise a full-content read. -/
def imageReadOp (f : FileAsset) : Option ReadOp :=
  if f.hasArrayBuffer then
    if f.hasSlice then some (ReadOp.sliceRead 0 16) else some ReadOp.fullRead
  else none

/-- The bytes `_validateImageFile` ends up checking: the slice path reads
the buffer of `file.slice(0, 16)`; the fallback path reads the full
buffer and keeps `slice(0, 16)` of the resulting byte array. -/
def bytesRead (f : FileAsset) : List Nat :=
  if f.hasSlice then ((f.content.drop 0).take 16)
  else f.content.take 16

/-- MIME types accepted by `_validateImageFile`. -/
def allowedMimeTypes : List String :=
  ["image/jpeg", "image/jpg", "image/png", "image/webp"]

/-- Magic-byte stage of `_validateImageFile`: runs only when the file
exposes `arrayBuffer`.  In the embedding byte reads always succeed, so
the surrounding catch in the source (which swallows read errors but
re-throws a signature mismatch) re-throws exactly the mismatch error. -/
def validateImageFileContent (f : FileAsset) : Except String Unit :=
  if f.hasArrayBuffer then
    if checkMagicBytes (bytesRead f) then .ok ()
    else .error "File content does not match allowed image formats"
  else .ok ()

/-- Size and content stages of `_validateImageFile` (after the declared
type stage): 10 MB ceiling, checked only when a size is declared. -/
def validateImageFileSize (f : FileAsset) : Except String Unit :=
  match f.declaredSize with
  | some n =>
    if n > 10 * 1024 * 1024 then
      .error "File size too large. Maximum size is 10MB."
    else validateImageFileContent f
  | none => validateImageFileContent f

/-- Embeds `OpenFoodFactsAPI._validateImageFile(file)`: absent file,
declared-type allow-list (only when a type is declared), 10 MB size
ceiling (only when a size is declared), then — only when the object
exposes `arrayBuffer` — the magic-byte check on `bytesRead`. -/
def validateImageFile : (file : Option FileAsset) → Except String Unit
  | none => .error "Image file is required"
  | some f =>
    match f.declaredType with
    | some t =>
      if !(allowedMimeTypes.contains t) then
        .error "Invalid file type. Only JPEG, PNG, and WebP images are allowed."
      else validateImageFileSize f
    | none => validateImageFileSize f

/-- A credential pair as stored by `setCredentials`. -/
structure Credentials where
  userId : String
  password : String
deriving Repr, DecidableEq

/-- The per-instance fields of `OpenFoodFactsAPI`: `this.baseUrl` and
`this.credentials` (the class has no other state and no static state). -/
structure ClientState where
  baseUrl : String
  credentials : Option Credentials
deriving Repr, DecidableEq

/-- The constructor's default `baseUrl` argument. -/
def defaultBaseUrl : String := "https://world.openfoodfacts.org"

/-- Character-list core of `String.prototype.startsWith`. -/
def listStartsWith : List Char → List Char → Bool
  | _, [] => true
  | [], _ :: _ => false
  | c :: cs, p :: ps => c == p && listStartsWith cs ps

/-- JavaScript `s.startsWith(pre)`. -/
def strStartsWith (s pre : String) : Bool :=
  listStartsWith s.toList pre.toList

/-- Embeds the `OpenFoodFactsAPI` constructor: rejects a non-HTTPS base
URL, otherwise returns a fresh instance with `credentials = null`. -/
def mkClient (baseUrl : String) : Except String ClientState :=
  if !(strStartsWith baseUrl "https://") then
    .error "HTTPS is required for secure API access. Use https:// URLs only."
  else
    .ok { baseUrl := baseUrl, credentials := none }

/-- Embeds `setCredentials(userId, password)`: both arguments must be
strings and non-empty after trimming; on success only the instance's own
`credentials` field is replaced. -/
def setCredentials (c : ClientState) (userId password : JsArg) :
    Except String ClientState :=
  match userId, password with
  | .str u, .str p =>
    if jsTrim u == "" || jsTrim p == "" then
      .error "User ID and password cannot be empty"
    else
      .ok { c with credentials := some { userId := u, password := p } }
  | _, _ => .error "User ID and password must be strings"

/-- A heap of client instances, indexed by object identity: models that
each JavaScript `OpenFoodFactsAPI` object carries its own `baseUrl` and
`credentials` fields and that the module holds no shared mutable state. -/
def Heap : Type := Nat → Option ClientState

/-- Allocating a new instance with `new OpenFoodFactsAPI(url)` at a fresh
identity: only the fresh slot is written. -/
def Heap.construct (h : Heap) (id : Nat) (url : String) : Except String Heap :=
  match h id with
  | some _ => .error "instance identity already in use"
  | none =>
    (mkClient url).map (fun c => fun j => if j = id then some c else h j)

/-- Calling `setCredentials` on the instance at identity `id`: only that
instance's state is replaced. -/
def Heap.setCredentialsAt (h : Heap) (id : Nat) (u p : JsArg) :
    Except String Heap :=
  match h id with
  | none => .error "no such instance"
  | some c =>
    (setCredentials c u p).map (fun c' => fun j => if j = id then some c' else h j)

/-- Embeds `_validateSecureConnection()`: re-checks the current
`this.baseUrl` at the point of use. -/
def validateSecureConnection (c : ClientState) : Except String Unit :=
  if !(strStartsWith c.baseUrl "https://") then
    .error "Cannot send credentials over non-HTTPS connection. HTTPS is required for authenticated requests."
  else
    .ok ()

/-- JSON-like values as decoded by `response.json()`. -/
inductive JsonVal where
  | jnull
  | jbool (b : Bool)
  | jnum (n : Int)
  | jstr (s : String)
  | jarr (elems : List JsonVal)
  | jobj (entries : List (String × JsonVal))
deriving Inhabited

/-- Outcome of one `fetch` call together with the subsequent
`response.json()` decode: the fetch promise may reject (`netFail`), the
response may carry a non-ok status (`httpErr`), the body decode may
reject (`jsonFail`), or a JSON value is produced. -/
inductive FetchOutcome where
  | netFail (msg : String)
  | httpErr (status : Nat)
  | jsonFail (msg : String)
  | success (body : JsonVal)

/-- Argument object of `addProduct`. -/
structure ProductData where
  code : JsArg := .undef
  brands : JsArg := .undef
  labels : JsArg := .undef
deriving Repr

/-- The multipart form `addProduct` builds inside its try block: `code`,
credential fields, then optional sanitized `brands` / `labels` (appended
only when truthy; sanitization throws on a truthy non-string). -/
def addFormData (creds : Credentials) (data : ProductData) :
    Except String (List (String × String)) :=
  let base := [("code", data.code.asString),
               ("user_id", creds.userId),
               ("password", creds.password)]
  match (if data.brands.truthy then
           match sanitizeSearchInput data.brands with
           | .ok s => .ok (base ++ [("brands", s)])
           | .error m => .error m
         else .ok base : Except String (List (String × String))) with
  | .error m => .error m
  | .ok withBrands =>
    if data.labels.truthy then
      match sanitizeSearchInput data.labels with
      | .ok s => .ok (withBrands ++ [("labels", s)])
      | .error m => .error m
    else .ok withBrands

/-- The `fetch` / ok-check / `json()` sequence shared by the write
operations' try blocks, throwing plain error messages. -/
def writeTransport (tr : FetchOutcome) : Except String JsonVal :=
  match tr with
  | .netFail m => .error m
  | .httpErr s => .error ("HTTP error! status: " ++ toString s)
  | .jsonFail m => .error m
  | .success body => .ok body

/-- Embeds `addProduct(data)` with the transport outcome passed
explicitly: credential gate, secure-connection re-check, barcode
validation, then the try block whose failures are wrapped with the
`Failed to add product: ` prefix. -/
def addProduct (c : ClientState) (data : ProductData) (tr : FetchOutcome) :
    Except String JsonVal :=
  match c.credentials with
  | none => .error "Credentials required for adding products"
  | some creds =>
    match validateSecureConnection c with
    | .error m => .error m
    | .ok () =>
      match validateBarcode data.code false with
      | .error m => .error m
      | .ok () =>
        match (match addFormData creds data with
               | .error m => .error m
               | .ok _form => writeTransport tr : Except String JsonVal) with
        | .ok v => .ok v
        | .error m => .error ("Failed to add product: " ++ m)

/-- The `type` argument object of `uploadPhoto`. -/
structure PhotoType where
  field : Option String := none
  languageCode : Option String := none
deriving Repr

/-- Photo fields accepted by `uploadPhoto`. -/
def allowedPhotoFields : List String := ["front", "ingredients", "nutrition"]

/-- Embeds `uploadPhoto(barcode, image, type)` with the transport
outcome passed explicitly: credential gate, secure-connection re-check,
barcode and image validation, the type / field checks, then the try
block whose failures are wrapped with the `Failed to upload photo: `
prefix. -/
def uploadPhoto (c : ClientState) (barcode : JsArg) (image : Option FileAsset)
    (ptype : Option PhotoType) (tr : FetchOutcome) : Except String JsonVal :=
  match c.credentials with
  | none => .error "Credentials required for uploading photos"
  | some _creds =>
    match validateSecureConnection c with
    | .error m => .error m
    | .ok () =>
      match validateBarcode barcode false with
      | .error m => .error m
      | .ok () =>
        match validateImageFile image with
        | .error m => .error m
        | .ok () =>
          match ptype with
          | none => .error "Type with field and languageCode is required"
          | some t =>
            match t.field, t.languageCode with
            | some f, some lc =>
              if f == "" || lc == "" then
                .error "Type with field and languageCode is required"
              else if !(allowedPhotoFields.contains f) then
                .error "Invalid field type. Must be front, ingredients, or nutrition."
              else
                match writeTransport tr with
                | .ok v => .ok v
                | .error m => .error ("Failed to upload photo: " ++ m)
            | _, _ => .error "Type with field and languageCode is required"

/-- Errors thrown inside `searchProducts`: either a plain `Error` (only
its message is observable) or an `OpenFoodFactsError` carrying details
and a status, which the catch clause re-throws unchanged. -/
inductive JsErr where
  | plain (msg : String)
  | offErr (msg : String) (details : String) (status : Nat)
deriving Repr, DecidableEq

/-- Property lookup on a JavaScript object literal, modelled as the
first entry with the given key. -/
def getField (entries : List (String × JsonVal)) (k : String) : Option JsonVal :=
  (entries.find? (fun e => e.1 == k)).map (fun e => e.2)

/-- Spread-with-override `\x7b...data, k: v\x7d`: an existing key keeps its
position with the new value; a missing key is appended. -/
def setField (entries : List (String × JsonVal)) (k : String) (v : JsonVal) :
    List (String × JsonVal) :=
  if entries.any (fun e => e.1 == k) then
    entries.map (fun e => if e.1 == k then (e.1, v) else e)
  else
    entries ++ [(k, v)]

/-- One step of the projection loop in `searchProducts`: for each
requested field present on the product (`field in product`), copy its
value; unknown requested fields are skipped silently. -/
def projectEntries (fieldsList : List String) (entries : List (String × JsonVal)) :
    List (String × JsonVal) :=
  fieldsList.filterMap (fun f => (getField entries f).map (fun v => (f, v)))

/-- Projection of one element of `data.products`.  A non-object element
makes the JavaScript `in` operator throw a TypeError at run time
(message modelled representatively; no property of it is claimed). -/
def projectProduct (fieldsList : List String) : JsonVal → Except JsErr JsonVal
  | .jobj entries => .ok (.jobj (projectEntries fieldsList entries))
  | _ => .error (.plain "Cannot use 'in' operator to search for field in product")

/-- Left-to-right projection of the whole `data.products` array, aborting
at the first thrown error as `Array.prototype.map` does. -/
def projectProducts (fieldsList : List String) :
    List JsonVal → Except JsErr (List JsonVal)
  | [] => .ok []
  | p :: ps =>
    match projectProduct fieldsList p with
    | .error e => .error e
    | .ok q =>
      match projectProducts fieldsList ps with
      | .error e => .error e
      | .ok qs => .ok (q :: qs)

/-- Embeds the projection return of `searchProducts`:
`\x7b...data, products: data.products.map(...)\x7d`.  When `data.products`
is absent or not an array, `.map` raises a TypeError at run time
(messages modelled representatively; no property of them is claimed). -/
def projectResponse (fieldsList : List String) : JsonVal → Except JsErr JsonVal
  | .jobj entries =>
    match getField entries "products" with
    | some (.jarr ps) =>
      match projectProducts fieldsList ps with
      | .error e => .error e
      | .ok ps' => .ok (.jobj (setField entries "products" (.jarr ps')))
    | some _ => .error (.plain "data.products.map is not a function")
    | none => .error (.plain "Cannot read properties of undefined (reading 'map')")
  | _ => .error (.plain "Cannot read properties of undefined (reading 'map')")

/-- The check `!data || typeof data !== 'object'` in `searchProducts`:
only arrays and objects get past it (null is falsy, and primitive bodies
have a non-object `typeof`). -/
def JsonVal.isObjectLike : JsonVal → Bool
  | .jarr _ => true
  | .jobj _ => true
  | _ => false

/-- Argument object of `searchProducts`.  `none` on an optional member
stands for an absent (or, for `fields` / the tag arrays, non-array)
member; JavaScript array values are always truthy, so `some []` differs
from `none` where the source tests truthiness of an array. -/
structure SearchParams where
  search_terms : JsArg := .undef
  code : JsArg := .undef
  code_type : Option String := none
  tagType : Option (List String) := none
  tag : Option (List String) := none
  tagContains : Option (List String) := none
  additives : Option String := none
  ingredientsFromPalmOil : Option String := none
  page : Option Int := none
  pageSize : Option Int := none
  fields : Option (List String) := none
  action : Option String := none

/-- Truthiness of an optional string member. -/
def optStrTruthy : Option String → Bool
  | some s => s != ""
  | none => false

/-- Truthiness of an optional numeric member. -/
def optNumTruthy : Option Int → Bool
  | some n => n != 0
  | none => false

/-- The `code_type` switch of `searchProducts`: unrecognized values fall
back to `exact`. -/
def codeTypeValue (s : String) : String :=
  if s == "contains" then "contains"
  else if s == "starts" then "starts"
  else if s == "ends" then "ends"
  else "exact"

/-- The index-suffixed tag triples appended by the `forEach` over
`params.tagType` (append order per index: `tagtype_i`, `tag_contains_i`,
`tag_i`; a missing entry of a shorter parallel array is stringified as
`undefined` by URLSearchParams). -/
def tagTriples (ts tg tc : List String) : List (String × String) :=
  (List.range ts.length).flatMap (fun i =>
    [("tagtype_" ++ toString i, ts.getD i "undefined"),
     ("tag_contains_" ++ toString i, tc.getD i "undefined"),
     ("tag_" ++ toString i, tg.getD i "undefined")])

/-- Embeds the query-construction phase of `searchProducts` (everything
before the `fetch` call): the fixed `json` / `action` entries, sanitized
`search_terms` when truthy, partial-barcode-validated `code` with its
match mode, tag triples when all three tag members are present,
additional filters, and pagination.  Thrown validation errors abort the
phase. -/
def searchQuery (p : SearchParams) : Except JsErr (List (String × String)) :=
  let base := [("json", "true"),
               ("action", match p.action with
                          | some a => if a != "" then a else "process"
                          | none => "process")]
  match (if p.search_terms.truthy then
           match sanitizeSearchInput p.search_terms with
           | .ok s => .ok (base ++ [("search_terms", s)])
           | .error m => .error (JsErr.plain m)
         else .ok base : Except JsErr (List (String × String))) with
  | .error e => .error e
  | .ok q1 =>
    match (if p.code.truthy then
             match validateBarcode p.code true with
             | .error m => .error (JsErr.plain m)
             | .ok () =>
               let withCode := q1 ++ [("code", p.code.asString)]
               match p.code_type with
               | some ct =>
                 if ct != "" then .ok (withCode ++ [("code_type", codeTypeValue ct)])
                 else .ok withCode
               | none => .ok withCode
           else .ok q1 : Except JsErr (List (String × String))) with
    | .error e => .error e
    | .ok q2 =>
      let q3 :=
        match p.tagType, p.tag, p.tagContains with
        | some ts, some tg, some tc => q2 ++ tagTriples ts tg tc
        | _, _, _ => q2
      let q4 := if optStrTruthy p.additives then
                  q3 ++ [("additives", p.additives.getD "")]
                else q3
      let q5 := if optStrTruthy p.ingredientsFromPalmOil then
                  q4 ++ [("ingredients_from_palm_oil", p.ingredientsFromPalmOil.getD "")]
                else q4
      let q6 := match p.page with
                | some n => if n != 0 then q5 ++ [("page", toString n)] else q5
                | none => q5
      let q7 := match p.pageSize with
                | some n => if n != 0 then q6 ++ [("page_size", toString n)] else q6
                | none => q6
      .ok q7

/-- The `fetch` / ok-check / `json()` / body-shape sequence of
`searchProducts`: a non-ok status throws an `OpenFoodFactsError` with
detail `API request failed`; a null or non-object decoded body throws
the plain `Invalid response format` error. -/
def searchTransportPhase (tr : FetchOutcome) : Except JsErr JsonVal :=
  match tr with
  | .netFail m => .error (.plain m)
  | .httpErr s => .error (.offErr ("HTTP error! status: " ++ toString s) "API request failed" s)
  | .jsonFail m => .error (.plain m)
  | .success body =>
    if body.isObjectLike then .ok body
    else .error (.plain "Invalid response format")

/-- The try block of `searchProducts`: query construction, transport,
then client-side field projection — applied only when `params.fields` is
a non-empty array. -/
def searchBody (p : SearchParams) (tr : FetchOutcome) : Except JsErr JsonVal :=
  match searchQuery p with
  | .error e => .error e
  | .ok _query =>
    match searchTransportPhase tr with
    | .error e => .error e
    | .ok body =>
      match p.fields with
      | some fs => if fs.length > 0 then projectResponse fs body else .ok body
      | none => .ok body

/-- Embeds `searchProducts(params)` with the transport outcome passed
explicitly.  The catch clause re-throws an `OpenFoodFactsError`
unchanged, passes the `Invalid response format` message through
unwrapped, and wraps every other error with the
`Failed to search products: ` prefix. -/
def searchProducts (p : SearchParams) (tr : FetchOutcome) : Except JsErr JsonVal :=
  match searchBody p tr with
  | .ok v => .ok v
  | .error (.offErr m d s) => .error (.offErr m d s)
  | .error (.plain m) =>
    if m == "Invalid response format" then .error (.plain m)
    else .error (.plain ("Failed to search products: " ++ m))

/-! ## Theorems -/

/-- C8: full-barcode validation (`allowPartial` false) is a total
predicate: every non-string input fails with exactly
`Barcode must be a string`; every string of 8 to 13 decimal digits
passes; every other string fails with exactly
`Invalid barcode format. Must be 8-13 digits.`.  Freedom from side
effects holds by construction: `validateBarcode` is a pure function. -/
theorem validateBarcode_full_total :
    (∀ v : JsArg, v.isStr = false →
        validateBarcode v false = .error "Barcode must be a string") ∧
    (∀ s : String, 8 ≤ s.length → s.length ≤ 13 → allDigits s = true →
        validateBarcode (.str s) false = .ok ()) ∧
    (∀ s : String, ¬(8 ≤ s.length ∧ s.length ≤ 13 ∧ allDigits s = true) →
        validateBarcode (.str s) false =
          .error "Invalid barcode format. Must be 8-13 digits.") := by
  refine ⟨?_, ?_, ?_⟩
  · intro v hv
    cases v <;> simp_all [validateBarcode, JsArg.isStr]
  · intro s h1 h2 h3
    simp [validateBarcode, h1, h2, h3]
  · intro s h
    have hc : (8 ≤ s.length && s.length ≤ 13 && allDigits s) = false := by
      by_cases h1 : 8 ≤ s.length
      · by_cases h2 : s.length ≤ 13
        · by_cases h3 : allDigits s = true
          · exact absurd ⟨h1, h2, h3⟩ h
          · simp [Bool.eq_false_iff.mpr h3]
        · simp [h2]
      · simp [h1]
    simp [validateBarcode, hc]

/-- Witness for C8 at concrete inputs: an 8-digit string passes, a
number and a 7-digit string fail with the exact messages. -/
theorem validateBarcode_full_total_witness :
    validateBarcode (.str "12345678") false = .ok () ∧
    validateBarcode (.num 5) false = .error "Barcode must be a string" ∧
    validateBarcode (.str "1234567") false =
      .error "Invalid barcode format. Must be 8-13 digits." :=
  ⟨validateBarcode_full_total.2.1 "12345678" (by decide) (by decide) (by decide),
   validateBarcode_full_total.1 (.num 5) (by decide),
   validateBarcode_full_total.2.2 "1234567" (by decide)⟩

/-- C9: sanitization is entity-encode, then trim, then truncate to 100
characters; every produced output has length at most 100; the script
injection example encodes exactly as specified; 150 repetitions of `a`
sanitize to a 100-character result. -/
theorem sanitize_pipeline_spec :
    (∀ s out : String, sanitizeSearchInput (.str s) = .ok out →
        out = jsSubstringTo (jsTrim (heEncode s)) 100 ∧ out.length ≤ 100) ∧
    sanitizeSearchInput (.str "<script>alert(\"xss\")</script>Chocolate") =
      .ok "&#x3C;script&#x3E;alert(&#x22;xss&#x22;)&#x3C;/script&#x3E;Chocolate" ∧
    (∀ out : String,
        sanitizeSearchInput (.str (String.mk (List.replicate 150 'a'))) = .ok out →
        out.length = 100) := by
  refine ⟨?_, ?_, ?_⟩
  · intro s out h
    have hout : out = jsSubstringTo (jsTrim (heEncode s)) 100 := by
      simpa [sanitizeSearchInput] using h.symm
    refine ⟨hout, ?_⟩
    rw [hout]
    simp [jsSubstringTo, String.length_mk]
  · decide
  · intro out h
    have hout : out = jsSubstringTo (jsTrim (heEncode (String.mk (List.replicate 150 'a')))) 100 := by
      simpa [sanitizeSearchInput] using h.symm
    rw [hout]
    decide

/-- Witness for C9 at a concrete input: sanitizing `abc` yields `abc`,
which is the pipeline value and is within the length bound. -/
theorem sanitize_pipeline_spec_witness :
    ("abc" : String) = jsSubstringTo (jsTrim (heEncode "abc")) 100 ∧
    ("abc" : String).length ≤ 100 :=
  sanitize_pipeline_spec.1 "abc" "abc" (by decide)

/-- A signature comparison succeeds exactly when the signature is the
corresponding leading prefix, whenever enough bytes are available. -/
theorem sigMatches_take (sig : List Nat) : ∀ bytes : List Nat,
    sig.length ≤ bytes.length →
    (sigMatches bytes sig = true ↔ bytes.take sig.length = sig) := by
  induction sig with
  | nil => intro bytes _; simp [sigMatches]
  | cons s ss ih =>
    intro bytes h
    cases bytes with
    | nil => simp at h
    | cons b bs =>
      have h' : ss.length ≤ bs.length := by
        simpa using h
      simp [sigMatches, ih bs h', List.cons.injEq, Bool.and_eq_true, beq_iff_eq,
        and_comm]

/-- When the declared type and size stages pass, image validation reduces
to the content stage. -/
theorem validateImageFile_stages (f : FileAsset)
    (htype : ∀ t, f.declaredType = some t → allowedMimeTypes.contains t = true)
    (hsize : ∀ n, f.declaredSize = some n → n ≤ 10 * 1024 * 1024) :
    validateImageFile (some f) = validateImageFileContent f := by
  have h1 : validateImageFile (some f) = validateImageFileSize f := by
    cases hd : f.declaredType with
    | none => simp [validateImageFile, hd]
    | some t =>
      have hmem : t ∈ allowedMimeTypes := by simpa using htype t hd
      simp [validateImageFile, hd, hmem]
  rw [h1]
  cases hs : f.declaredSize with
  | none => simp [validateImageFileSize, hs]
  | some n => simp [validateImageFileSize, hs, Nat.not_lt.mpr (hsize n hs)]

/-- Negative form of `sigMatches_take`. -/
theorem sigMatches_false (sig bytes : List Nat) (h : sig.length ≤ bytes.length)
    (hne : bytes.take sig.length ≠ sig) : sigMatches bytes sig = false := by
  cases hsm : sigMatches bytes sig with
  | false => rfl
  | true => exact absurd ((sigMatches_take sig bytes h).mp hsm) hne

/-- C3: for an asset whose byte read yields 16 bytes (with the declared
type and size stages passing), validation accepts a JPEG prefix
`FF D8 FF`, a PNG prefix `89 50 4E 47`, and a RIFF prefix `52 49 46 46`
with `57 45 42 50` at offsets 8-11; it rejects with exactly
`File content does not match allowed image formats` a RIFF prefix whose
offsets 8-11 are not the WEBP identifier, and likewise any 16 bytes
matching no signature. -/
theorem image_signature_rules (f : FileAsset)
    (htype : ∀ t, f.declaredType = some t → allowedMimeTypes.contains t = true)
    (hsize : ∀ n, f.declaredSize = some n → n ≤ 10 * 1024 * 1024)
    (hbuf : f.hasArrayBuffer = true)
    (hlen : (bytesRead f).length = 16) :
    ((bytesRead f).take 3 = jpegSig → validateImageFile (some f) = .ok ()) ∧
    ((bytesRead f).take 4 = pngSig → validateImageFile (some f) = .ok ()) ∧
    ((bytesRead f).take 4 = riffSig → ((bytesRead f).drop 8).take 4 = webpId →
        validateImageFile (some f) = .ok ()) ∧
    ((bytesRead f).take 4 = riffSig → ((bytesRead f).drop 8).take 4 ≠ webpId →
        validateImageFile (some f) =
          .error "File content does not match allowed image formats") ∧
    ((bytesRead f).take 3 ≠ jpegSig → (bytesRead f).take 4 ≠ pngSig →
        (bytesRead f).take 4 ≠ riffSig →
        validateImageFile (some f) =
          .error "File content does not match allowed image formats") := by
  have hred := validateImageFile_stages f htype hsize
  have hcontent : ∀ b : Bool, checkMagicBytes (bytesRead f) = b →
      validateImageFile (some f) =
        (if b then .ok () else .error "File content does not match allowed image formats") := by
    intro b hb
    rw [hred]
    unfold validateImageFileContent
    rw [hbuf, hb]
    simp
  have hj := sigMatches_take jpegSig (bytesRead f) (by rw [hlen]; decide)
  have hp := sigMatches_take pngSig (bytesRead f) (by rw [hlen]; decide)
  have hr := sigMatches_take riffSig (bytesRead f) (by rw [hlen]; decide)
  have hdlen : ((bytesRead f).drop 8).length = 8 := by rw [List.length_drop, hlen]
  have hw := sigMatches_take webpId ((bytesRead f).drop 8) (by rw [hdlen]; decide)
  have hj3 : jpegSig.length = 3 := by decide
  have hp4 : pngSig.length = 4 := by decide
  have hr4 : riffSig.length = 4 := by decide
  have hw4 : webpId.length = 4 := by decide
  rw [hj3] at hj; rw [hp4] at hp; rw [hr4] at hr; rw [hw4] at hw
  have htt : (bytesRead f).take 3 = ((bytesRead f).take 4).take 3 := by
    rw [List.take_take]; norm_num
  have h12 : 12 ≤ (bytesRead f).length := by rw [hlen]; decide
  refine ⟨?_, ?_, ?_, ?_, ?_⟩
  · intro h1
    have : checkMagicBytes (bytesRead f) = true := by
      unfold checkMagicBytes
      rw [hj.mpr h1]
      rfl
    simpa using hcontent true this
  · intro h1
    have hjf : sigMatches (bytesRead f) jpegSig = false := by
      apply sigMatches_false _ _ (by rw [hlen]; decide)
      rw [hj3, htt, h1]
      decide
    have : checkMagicBytes (bytesRead f) = true := by
      unfold checkMagicBytes
      rw [hjf, hp.mpr h1]
      rfl
    simpa using hcontent true this
  · intro h1 h2
    have hjf : sigMatches (bytesRead f) jpegSig = false := by
      apply sigMatches_false _ _ (by rw [hlen]; decide)
      rw [hj3, htt, h1]
      decide
    have hpf : sigMatches (bytesRead f) pngSig = false := by
      apply sigMatches_false _ _ (by rw [hlen]; decide)
      rw [hp4, h1]
      decide
    have : checkMagicBytes (bytesRead f) = true := by
      unfold checkMagicBytes
      rw [hjf, hpf, hr.mpr h1, hw.mpr h2]
      simp [h12]
    simpa using hcontent true this
  · intro h1 h2
    have hjf : sigMatches (bytesRead f) jpegSig = false := by
      apply sigMatches_false _ _ (by rw [hlen]; decide)
      rw [hj3, htt, h1]
      decide
    have hpf : sigMatches (bytesRead f) pngSig = false := by
      apply sigMatches_false _ _ (by rw [hlen]; decide)
      rw [hp4, h1]
      decide
    have hwf : sigMatches ((bytesRead f).drop 8) webpId = false := by
      cases hsm : sigMatches ((bytesRead f).drop 8) webpId with
      | false => rfl
      | true => exact absurd (hw.mp hsm) h2
    have : checkMagicBytes (bytesRead f) = false := by
      unfold checkMagicBytes
      rw [hjf, hpf, hr.mpr h1, hwf]
      simp [h12]
    simpa using hcontent false this
  · intro h1 h2 h3
    have hjf : sigMatches (bytesRead f) jpegSig = false := by
      apply sigMatches_false _ _ (by rw [hlen]; decide)
      rwa [hj3]
    have hpf : sigMatches (bytesRead f) pngSig = false := by
      apply sigMatches_false _ _ (by rw [hlen]; decide)
      rwa [hp4]
    have hrf : sigMatches (bytesRead f) riffSig = false := by
      apply sigMatches_false _ _ (by rw [hlen]; decide)
      rwa [hr4]
    have : checkMagicBytes (bytesRead f) = false := by
      unfold checkMagicBytes
      rw [hjf, hpf, hrf]
      rfl
    simpa using hcontent false this

/-- A 16-byte JPEG-signature file used to witness C3. -/
def jpegFile : FileAsset :=
  { content := [0xFF, 0xD8, 0xFF, 0xE0, 0, 0, 0, 0, 0, 0, 0, 0, 0, 0, 0, 0],
    hasArrayBuffer := true }

/-- Witness for C3: a concrete 16-byte buffer starting `FF D8 FF`
validates. -/
theorem image_signature_rules_witness :
    validateImageFile (some jpegFile) = .ok () :=
  (image_signature_rules jpegFile (fun _ h => nomatch h) (fun _ h => nomatch h)
      (by decide) (by decide)).1 (by decide)

/-- C10: for an asset exposing a read capability whose content begins
with the RIFF bytes but yields fewer than 12 bytes in total (with the
declared type and size stages passing), image validation passes: the
WEBP-identifier comparison at offsets 8-11 is guarded by a 12-byte
minimum and is skipped for short reads. -/
theorem riff_short_read_passes (f : FileAsset)
    (htype : ∀ t, f.declaredType = some t → allowedMimeTypes.contains t = true)
    (hsize : ∀ n, f.declaredSize = some n → n ≤ 10 * 1024 * 1024)
    (hbuf : f.hasArrayBuffer = true)
    (hriff : f.content.take 4 = riffSig)
    (hshort : f.content.length < 12) :
    validateImageFile (some f) = .ok () ∧
    checkMagicBytes (bytesRead f) = true := by
  have hbytes : bytesRead f = f.content := by
    have h16 : f.content.take 16 = f.content := List.take_of_length_le (by omega)
    unfold bytesRead
    cases f.hasSlice <;> simp [h16]
  have hlen4 : 4 ≤ f.content.length := by
    have := congrArg List.length hriff
    simp [List.length_take, riffSig] at this
    omega
  have hr := sigMatches_take riffSig f.content (by simpa [riffSig] using hlen4)
  have hr4 : riffSig.length = 4 := by decide
  rw [hr4] at hr
  have htt : f.content.take 3 = (f.content.take 4).take 3 := by
    rw [List.take_take]; norm_num
  have hjf : sigMatches f.content jpegSig = false := by
    apply sigMatches_false _ _ (by simpa [jpegSig] using by omega)
    rw [show jpegSig.length = 3 from by decide, htt, hriff]
    decide
  have hpf : sigMatches f.content pngSig = false := by
    apply sigMatches_false _ _ (by simpa [pngSig] using hlen4)
    rw [show pngSig.length = 4 from by decide, hriff]
    decide
  have hmagic : checkMagicBytes f.content = true := by
    unfold checkMagicBytes
    rw [hjf, hpf, hr.mpr hriff]
    simp [Nat.not_le.mpr hshort]
  refine ⟨?_, by rw [hbytes]; exact hmagic⟩
  rw [validateImageFile_stages f htype hsize]
  unfold validateImageFileContent
  rw [hbuf, hbytes, hmagic]
  simp

/-- A 4-byte bare-RIFF file used to witness C10. -/
def shortRiffFile : FileAsset :=
  { content := [0x52, 0x49, 0x46, 0x46], hasArrayBuffer := true }

/-- Witness for C10: a 4-byte bare RIFF header passes validation. -/
theorem riff_short_read_passes_witness :
    validateImageFile (some shortRiffFile) = .ok () ∧
    checkMagicBytes (bytesRead shortRiffFile) = true :=
  riff_short_read_passes shortRiffFile (fun _ h => nomatch h) (fun _ h => nomatch h)
    (by decide) (by decide) (by decide)

/-- Successful `setCredentialsAt` only rewrites the addressed slot, and
that slot held an instance whose `setCredentials` succeeded. -/
theorem setCredentialsAt_ok (h : Heap) (id : Nat) (u p : JsArg) (h' : Heap)
    (hset : Heap.setCredentialsAt h id u p = .ok h') :
    (∀ j, j ≠ id → h' j = h j) ∧
    ∃ c c2, h id = some c ∧ setCredentials c u p = .ok c2 ∧ h' id = some c2 := by
  cases hc : h id with
  | none => simp [Heap.setCredentialsAt, hc] at hset
  | some c =>
    cases hsc : setCredentials c u p with
    | error m => simp [Heap.setCredentialsAt, hc, hsc, Except.map] at hset
    | ok c2 =>
      simp only [Heap.setCredentialsAt, hc, hsc, Except.map, Except.ok.injEq] at hset
      refine ⟨fun j hj => ?_, c, c2, rfl, hsc, ?_⟩
      · rw [← hset]; simp [hj]
      · rw [← hset]; simp

/-- Successful `construct` requires a fresh slot, writes the fresh
instance (with absent credentials) there, and leaves every other slot
unchanged. -/
theorem construct_ok (h : Heap) (id : Nat) (url : String) (h' : Heap)
    (hcon : Heap.construct h id url = .ok h') :
    h id = none ∧ h' id = some { baseUrl := url, credentials := none } ∧
    ∀ j, j ≠ id → h' j = h j := by
  cases hc : h id with
  | some c => simp [Heap.construct, hc] at hcon
  | none =>
    by_cases hs : strStartsWith url "https://" = true
    · simp only [Heap.construct, hc, mkClient, hs, Bool.not_true, Bool.false_eq_true,
        if_false, Except.map, Except.ok.injEq] at hcon
      refine ⟨rfl, ?_, fun j hj => ?_⟩
      · rw [← hcon]; simp
      · rw [← hcon]; simp [hj]
    · have hs' : strStartsWith url "https://" = false := Bool.eq_false_iff.mpr hs
      simp [Heap.construct, hc, mkClient, hs', Except.map] at hcon

/-- C1: client instances are isolated.  `setCredentials` on one instance
leaves every other instance's state untouched; a freshly constructed
instance has absent (`null`) credentials and its construction leaves
every other instance untouched; in particular, constructing B after A
received credentials yields B with absent credentials, does not change A,
and A's earlier `setCredentials` did not change B's slot. -/
theorem client_instance_isolation :
    (∀ (h : Heap) (id : Nat) (u p : JsArg) (h' : Heap),
        Heap.setCredentialsAt h id u p = .ok h' →
        ∀ j, j ≠ id → h' j = h j) ∧
    (∀ (h : Heap) (id : Nat) (url : String) (h' : Heap),
        Heap.construct h id url = .ok h' →
        h' id = some { baseUrl := url, credentials := none } ∧
        ∀ j, j ≠ id → h' j = h j) ∧
    (∀ (h0 : Heap) (idA : Nat) (urlA : String) (hA : Heap) (u p : JsArg)
        (hA2 : Heap) (idB : Nat) (urlB : String) (hB : Heap),
        Heap.construct h0 idA urlA = .ok hA →
        Heap.setCredentialsAt hA idA u p = .ok hA2 →
        Heap.construct hA2 idB urlB = .ok hB →
        hB idB = some { baseUrl := urlB, credentials := none } ∧
        hB idA = hA2 idA ∧ hA2 idB = hA idB) := by
  refine ⟨?_, ?_, ?_⟩
  · intro h id u p h' hset
    exact (setCredentialsAt_ok h id u p h' hset).1
  · intro h id url h' hcon
    exact ⟨(construct_ok h id url h' hcon).2.1, (construct_ok h id url h' hcon).2.2⟩
  · intro h0 idA urlA hA u p hA2 idB urlB hB hconA hset hconB
    obtain ⟨hfreshB, hBfresh, hBframe⟩ := construct_ok hA2 idB urlB hB hconB
    obtain ⟨hAframe, c, c2, hcA, _, hcA2⟩ := setCredentialsAt_ok hA idA u p hA2 hset
    have hne : idA ≠ idB := by
      intro he
      rw [he] at hcA2
      rw [hcA2] at hfreshB
      exact Option.noConfusion hfreshB
    exact ⟨hBfresh, hBframe idA hne, hAframe idB (Ne.symm hne)⟩

/-- The empty heap, used to witness C1. -/
def heap0 : Heap := fun _ => none

/-- Heap after constructing instance A at identity 0. -/
def heapA : Heap :=
  fun j => if j = 0 then some ⟨"https://a.example", none⟩ else heap0 j

/-- Heap after `setCredentials` on instance A. -/
def heapA2 : Heap :=
  fun j => if j = 0 then some ⟨"https://a.example", some ⟨"u", "p"⟩⟩ else heapA j

/-- Heap after constructing instance B at identity 1. -/
def heapB : Heap :=
  fun j => if j = 1 then some ⟨"https://b.example", none⟩ else heapA2 j

/-- Witness for C1: a concrete two-instance scenario on the empty heap —
A at identity 0 gets credentials, then B at identity 1 is constructed
with absent credentials, A's slot unchanged by B's construction and B's
slot unchanged by A's `setCredentials`. -/
theorem client_instance_isolation_witness :
    heapB 1 = some { baseUrl := "https://b.example", credentials := none } ∧
    heapB 0 = heapA2 0 ∧ heapA2 1 = heapA 1 :=
  client_instance_isolation.2.2 heap0 0 "https://a.example" heapA
    (.str "u") (.str "p") heapA2 1 "https://b.example" heapB
    (by rfl) (by rfl) (by rfl)

/-- C2: for a file exposing the partial-read (`slice`) capability, image
validation never performs a full-content read; whenever a read happens
at all (the object also exposes `arrayBuffer`), it is exactly the
`slice(0, 16)` ranged read and only the first 16 content bytes are
materialized. -/
theorem minimal_read_on_slice (f : FileAsset) (hslice : f.hasSlice = true) :
    imageReadOp f ≠ some ReadOp.fullRead ∧
    (f.hasArrayBuffer = true →
      imageReadOp f = some (ReadOp.sliceRead 0 16) ∧
      bytesRead f = f.content.take 16) := by
  constructor
  · cases hb : f.hasArrayBuffer <;> simp [imageReadOp, hb, hslice]
  · intro hb
    exact ⟨by simp [imageReadOp, hb, hslice], by simp [bytesRead, hslice]⟩

/-- A 3-byte file exposing both read capabilities, used to witness C2. -/
def slicedFile : FileAsset :=
  { content := [1, 2, 3], hasSlice := true, hasArrayBuffer := true }

/-- Witness for C2 at a concrete sliceable file. -/
theorem minimal_read_on_slice_witness :
    imageReadOp slicedFile ≠ some ReadOp.fullRead ∧
    imageReadOp slicedFile = some (ReadOp.sliceRead 0 16) ∧
    bytesRead slicedFile = slicedFile.content.take 16 :=
  ⟨(minimal_read_on_slice slicedFile rfl).1,
   ((minimal_read_on_slice slicedFile rfl).2 rfl).1,
   ((minimal_read_on_slice slicedFile rfl).2 rfl).2⟩

/-- C4: constructing a client on a non-HTTPS endpoint fails with exactly
`HTTPS is required for secure API access. Use https:// URLs only.`; and
on an instance holding credentials whose endpoint was later switched to
a non-HTTPS value, `addProduct` and `uploadPhoto` re-check the current
endpoint and fail with exactly `Cannot send credentials over non-HTTPS
connection. HTTPS is required for authenticated requests.` — for every
transport outcome, hence before any transport call. -/
theorem https_transport_enforcement :
    (∀ url : String, strStartsWith url "https://" = false →
        mkClient url =
          .error "HTTPS is required for secure API access. Use https:// URLs only.") ∧
    (∀ (c : ClientState) (creds : Credentials), c.credentials = some creds →
        strStartsWith c.baseUrl "https://" = false →
        (∀ (data : ProductData) (tr : FetchOutcome),
            addProduct c data tr =
              .error "Cannot send credentials over non-HTTPS connection. HTTPS is required for authenticated requests.") ∧
        (∀ (barcode : JsArg) (image : Option FileAsset)
            (ptype : Option PhotoType) (tr : FetchOutcome),
            uploadPhoto c barcode image ptype tr =
              .error "Cannot send credentials over non-HTTPS connection. HTTPS is required for authenticated requests.")) := by
  constructor
  · intro url hu
    simp [mkClient, hu]
  · intro c creds hc hu
    have hsec : validateSecureConnection c =
        .error "Cannot send credentials over non-HTTPS connection. HTTPS is required for authenticated requests." := by
      simp [validateSecureConnection, hu]
    constructor
    · intro data tr
      simp [addProduct, hc, hsec]
    · intro barcode image ptype tr
      simp [uploadPhoto, hc, hsec]

/-- A client whose endpoint was mutated to plain HTTP after credentials
were set, used to witness C4. -/
def insecureClient : ClientState :=
  { baseUrl := "http://insecure.example",
    credentials := some { userId := "u", password := "p" } }

/-- Witness for C4 at concrete inputs; the same error results under two
different transport outcomes, exhibiting transport independence. -/
theorem https_transport_enforcement_witness :
    mkClient "http://x" =
      .error "HTTPS is required for secure API access. Use https:// URLs only." ∧
    addProduct insecureClient { code := .str "12345678" } (.success (.jobj [])) =
      .error "Cannot send credentials over non-HTTPS connection. HTTPS is required for authenticated requests." ∧
    addProduct insecureClient { code := .str "12345678" } (.netFail "boom") =
      .error "Cannot send credentials over non-HTTPS connection. HTTPS is required for authenticated requests." ∧
    uploadPhoto insecureClient (.str "12345678") none none (.netFail "boom") =
      .error "Cannot send credentials over non-HTTPS connection. HTTPS is required for authenticated requests." :=
  ⟨https_transport_enforcement.1 "http://x" (by decide),
   (https_transport_enforcement.2 insecureClient { userId := "u", password := "p" }
      rfl (by decide)).1 _ _,
   (https_transport_enforcement.2 insecureClient { userId := "u", password := "p" }
      rfl (by decide)).1 _ _,
   (https_transport_enforcement.2 insecureClient { userId := "u", password := "p" }
      rfl (by decide)).2 _ _ _ _⟩

/-- Property lookup on a cons cell. -/
theorem getField_cons (f : String) (v : JsonVal) (rest : List (String × JsonVal))
    (k : String) :
    getField ((f, v) :: rest) k = if f == k then some v else getField rest k := by
  cases h : (f == k) <;> simp [getField, List.find?, h]

/-- The projection keeps exactly the requested keys that are present on
the source object: a key appears in the projected object with the source
value when requested and present, and not at all otherwise. -/
theorem getField_projectEntries (fs : List String) (kvs : List (String × JsonVal))
    (k : String) :
    getField (projectEntries fs kvs) k = if k ∈ fs then getField kvs k else none := by
  induction fs with
  | nil => simp [projectEntries, getField, List.find?]
  | cons f fs' ih =>
    cases hg : getField kvs f with
    | none =>
      have hstep : projectEntries (f :: fs') kvs = projectEntries fs' kvs := by
        simp [projectEntries, List.filterMap_cons, hg]
      rw [hstep, ih]
      by_cases hk : k = f
      · subst hk; simp [hg]
      · simp [hk]
    | some v =>
      have hstep : projectEntries (f :: fs') kvs = (f, v) :: projectEntries fs' kvs := by
        simp [projectEntries, List.filterMap_cons, hg]
      rw [hstep, getField_cons, ih]
      by_cases hk : k = f
      · subst hk; simp [hg]
      · have hbf : (f == k) = false := by simp [Ne.symm hk]
        simp [hbf, hk]

/-- Projecting a list of objects succeeds and projects each object. -/
theorem projectProducts_objs (fs : List String) (ps : List (List (String × JsonVal))) :
    projectProducts fs (ps.map JsonVal.jobj) =
      .ok (ps.map (fun kvs => JsonVal.jobj (projectEntries fs kvs))) := by
  induction ps with
  | nil => rfl
  | cons kvs ps' ih => simp [projectProducts, projectProduct, ih]

/-- C5 (amended): for a successful search whose decoded body is an object
with a `products` array of objects, a non-empty field allow-list projects
each product down to exactly the requested keys that are present on it
(unknown requested keys silently omitted); an absent allow-list passes
the response through unchanged; and an empty allow-list is treated the
same as an absent one — the response also passes through unchanged. -/
theorem search_field_projection (p : SearchParams) (q : List (String × String))
    (hq : searchQuery p = .ok q)
    (entries : List (String × JsonVal)) (ps : List (List (String × JsonVal)))
    (hprod : getField entries "products" = some (.jarr (ps.map JsonVal.jobj))) :
    (∀ fs, p.fields = some fs → fs ≠ [] →
        searchProducts p (.success (.jobj entries)) =
          .ok (.jobj (setField entries "products"
            (.jarr (ps.map (fun kvs => JsonVal.jobj (projectEntries fs kvs)))))) ∧
        (∀ kvs k, getField (projectEntries fs kvs) k =
            if k ∈ fs then getField kvs k else none)) ∧
    (p.fields = none →
        searchProducts p (.success (.jobj entries)) = .ok (.jobj entries)) ∧
    (p.fields = some [] →
        searchProducts p (.success (.jobj entries)) = .ok (.jobj entries)) := by
  refine ⟨?_, ?_, ?_⟩
  · intro fs hf hne
    have hlen : fs.length > 0 := by
      cases fs with
      | nil => exact absurd rfl hne
      | cons a l => simp
    have hproj : projectResponse fs (.jobj entries) =
        .ok (.jobj (setField entries "products"
          (.jarr (ps.map (fun kvs => JsonVal.jobj (projectEntries fs kvs)))))) := by
      simp [projectResponse, hprod, projectProducts_objs]
    refine ⟨?_, fun kvs k => getField_projectEntries fs kvs k⟩
    simp [searchProducts, searchBody, hq, searchTransportPhase, JsonVal.isObjectLike,
      hf, hlen, hproj]
  · intro hf
    simp [searchProducts, searchBody, hq, searchTransportPhase, JsonVal.isObjectLike, hf]
  · intro hf
    simp [searchProducts, searchBody, hq, searchTransportPhase, JsonVal.isObjectLike, hf]

/-- A decoded search response with one product carrying two keys. -/
def sampleSearchData : JsonVal :=
  .jobj [("count", .jnum 1),
         ("products", .jarr [.jobj [("code", .jstr "123"), ("brands", .jstr "X")]])]

/-- C5 counterexample: the claim asserts an empty allow-list is not
treated the same as an absent one, but on a concrete response the code
returns the identical unfiltered result for `fields: []` and for absent
`fields` — both pass the body through unchanged. -/
theorem empty_fields_passthrough_cex :
    searchProducts { fields := some [] } (.success sampleSearchData) =
      .ok sampleSearchData ∧
    searchProducts { fields := none } (.success sampleSearchData) =
      .ok sampleSearchData ∧
    searchProducts { fields := some [] } (.success sampleSearchData) =
      searchProducts { fields := none } (.success sampleSearchData) :=
  ⟨rfl, rfl, rfl⟩

/-- Parameters requesting the `code` and `product_name` fields. -/
def projParams : SearchParams := { fields := some ["code", "product_name"] }

/-- Witness for C5 at concrete inputs: requesting `code` and
`product_name` keeps only the present key `code` and drops `brands`. -/
theorem search_field_projection_witness :
    searchProducts projParams (.success sampleSearchData) =
      .ok (.jobj [("count", .jnum 1),
                  ("products", .jarr [.jobj [("code", .jstr "123")]])]) :=
  ((search_field_projection projParams [("json", "true"), ("action", "process")]
      (by rfl)
      [("count", .jnum 1),
       ("products", .jarr [.jobj [("code", .jstr "123"), ("brands", .jstr "X")]])]
      [[("code", .jstr "123"), ("brands", .jstr "X")]]
      (by rfl)).1
    ["code", "product_name"] rfl (by simp)).1

/-- C6 (amended): for every search invocation whose `search_terms` is a
truthy non-string, `searchProducts` fails identically for every
transport outcome — hence before any transport call — but the
sanitizer's `Search input must be a string` error is re-thrown by the
operation's catch clause wrapped as
`Failed to search products: Search input must be a string`. -/
theorem search_nonstring_terms_wrapped (p : SearchParams)
    (ht : p.search_terms.truthy = true) (hs : p.search_terms.isStr = false)
    (tr : FetchOutcome) :
    searchProducts p tr =
      .error (.plain "Failed to search products: Search input must be a string") := by
  have hsan : sanitizeSearchInput p.search_terms =
      .error "Search input must be a string" := by
    cases hterm : p.search_terms <;> simp_all [sanitizeSearchInput, JsArg.isStr]
  have hquery : searchQuery p = .error (.plain "Search input must be a string") := by
    simp [searchQuery, ht, hsan]
  have hne : ("Search input must be a string" == "Invalid response format") = false := by
    decide
  simp [searchProducts, searchBody, hquery, hne]

/-- Witness for C6 (amended) at a concrete numeric `search_terms`. -/
theorem search_nonstring_terms_wrapped_witness :
    searchProducts { search_terms := JsArg.num 7 } (.netFail "x") =
      .error (.plain "Failed to search products: Search input must be a string") :=
  search_nonstring_terms_wrapped { search_terms := JsArg.num 7 }
    (by decide) (by decide) (.netFail "x")

/-- C6 counterexample: with a numeric `search_terms`, the surfaced error
message is the wrapped `Failed to search products: Search input must be
a string`, not the bare `Search input must be a string` the claim
states. -/
theorem search_nonstring_terms_cex :
    searchProducts { search_terms := JsArg.num 42 } (.success (.jobj [])) =
      .error (.plain "Failed to search products: Search input must be a string") ∧
    searchProducts { search_terms := JsArg.num 42 } (.success (.jobj [])) ≠
      .error (.plain "Search input must be a string") := by
  refine ⟨rfl, ?_⟩
  intro h
  have h1 : searchProducts { search_terms := JsArg.num 42 } (.success (.jobj [])) =
      .error (.plain "Failed to search products: Search input must be a string") := rfl
  rw [h1] at h
  exact absurd (JsErr.plain.inj (Except.error.inj h)) (by decide)

/-- C7 (amended): when the query phase succeeds, a transport success
whose decoded body is null or not an object fails with the exact
unwrapped `Invalid response format`; a transport-layer failure with
message `m` is surfaced wrapped as `Failed to search products: `
followed by `m`, provided `m` is not itself the sentinel
`Invalid response format` text. -/
theorem search_response_classification (p : SearchParams)
    (q : List (String × String)) (hq : searchQuery p = .ok q) :
    (∀ body : JsonVal, body.isObjectLike = false →
        searchProducts p (.success body) = .error (.plain "Invalid response format")) ∧
    (∀ m : String, m ≠ "Invalid response format" →
        searchProducts p (.netFail m) =
          .error (.plain ("Failed to search products: " ++ m))) := by
  constructor
  · intro body hobj
    simp [searchProducts, searchBody, hq, searchTransportPhase, hobj]
  · intro m hm
    have hne : (m == "Invalid response format") = false := by simp [hm]
    simp [searchProducts, searchBody, hq, searchTransportPhase, hne]

/-- Witness for C7 (amended): a string body is rejected unwrapped; a
connection failure is wrapped with the operation prefix. -/
theorem search_response_classification_witness :
    searchProducts {} (.success (.jstr "oops")) =
      .error (.plain "Invalid response format") ∧
    searchProducts {} (.netFail "connection refused") =
      .error (.plain "Failed to search products: connection refused") :=
  ⟨(search_response_classification {} [("json", "true"), ("action", "process")]
      (by rfl)).1 (.jstr "oops") (by decide),
   (search_response_classification {} [("json", "true"), ("action", "process")]
      (by rfl)).2 "connection refused" (by decide)⟩

/-- C7 counterexample: a transport-layer failure whose message happens to
be exactly `Invalid response format` is passed through unwrapped — not
wrapped with the `Failed to search products: ` prefix as the claim
states for every transport failure message. -/
theorem search_wrap_collision_cex :
    searchProducts {} (.netFail "Invalid response format") =
      .error (.plain "Invalid response format") ∧
    searchProducts {} (.netFail "Invalid response format") ≠
      .error (.plain "Failed to search products: Invalid response format") := by
  refine ⟨rfl, ?_⟩
  intro h
  have h1 : searchProducts {} (.netFail "Invalid response format") =
      .error (.plain "Invalid response format") := rfl
  rw [h1] at h
  exact absurd (JsErr.plain.inj (Except.error.inj h)) (by decide)

end OFF
